import Mathlib

/-!
Shallow embedding of the mcp-server-monday repository
(`src/mcp_server_monday/tools.py` and `src/mcp_server_monday/item.py`).

The repository is a thin adapter exposing Monday.com operations as MCP
tools.  Every handler is straight-line code of the shape "extract
arguments, call the Monday client, format the response".  We embed:

* Python values flowing through the untyped argument bags and JSON
  response envelopes as the inductive type `Value`;
* Python exceptions as `PyErr`; a computation that can raise is an
  `Except PyErr` value;
* the external Monday client as a structure of oracle functions, each
  returning either a response envelope or a raised exception;
* each handler as a function returning the pair of its outcome
  (returned content blocks, or a propagated exception) and the list of
  external calls it attempted, in order.

Names follow the Python source.  String literals reproduce the exact
text built by the source f-strings; literal braces are written with the
escapes \x7b and \x7d, and literal single quotes with \x27.
-/

/-- Model of a Python value as it appears in argument bags and JSON
response envelopes: `None`, booleans, integers, strings, lists and
(string-keyed) dictionaries. -/
inductive Value where
  | none : Value
  | bool (b : Bool) : Value
  | int (n : Int) : Value
  | str (s : String) : Value
  | list (xs : List Value) : Value
  | dict (kvs : List (String × Value)) : Value

/-- Python `v is None`. -/
def Value.isNone : Value → Bool
  | Value.none => true
  | _ => false

mutual

/-- Python structural equality `a == b` between two values. -/
def valueBeq : Value → Value → Bool
  | Value.none, Value.none => true
  | Value.bool a, Value.bool b => a == b
  | Value.int a, Value.int b => a == b
  | Value.str a, Value.str b => a == b
  | Value.list a, Value.list b => valueBeqSeq a b
  | Value.dict a, Value.dict b => valueBeqDict a b
  | _, _ => false

/-- Elementwise equality of two Python lists. -/
def valueBeqSeq : List Value → List Value → Bool
  | [], [] => true
  | a :: as_, b :: bs => valueBeq a b && valueBeqSeq as_ bs
  | _, _ => false

/-- Entrywise equality of two Python dicts (entry order respected; the
source only ever compares strings, so the simplification is harmless). -/
def valueBeqDict : List (String × Value) → List (String × Value) → Bool
  | [], [] => true
  | (ka, va) :: as_, (kb, vb) :: bs => ka == kb && valueBeq va vb && valueBeqDict as_ bs
  | _, _ => false

end

/-- Model of a raised Python exception, tagged by its class.  `external`
stands for an exception raised inside the Monday client library
(transport failure and the like). -/
inductive PyErr where
  | attributeError (msg : String) : PyErr
  | keyError (key : String) : PyErr
  | typeError (msg : String) : PyErr
  | valueError (msg : String) : PyErr
  | indexError (msg : String) : PyErr
  | external (msg : String) : PyErr
deriving DecidableEq

/-- Python truthiness of a `Value` (`bool(v)`). -/
def truthy : Value → Bool
  | Value.none => false
  | Value.bool b => b
  | Value.int n => n != 0
  | Value.str s => !s.isEmpty
  | Value.list xs => !xs.isEmpty
  | Value.dict kvs => !kvs.isEmpty

mutual

/-- Python `repr` of a `Value` (string used by `str` on containers). -/
def pyRepr : Value → String
  | Value.none => "None"
  | Value.bool true => "True"
  | Value.bool false => "False"
  | Value.int n => toString n
  | Value.str s => "\x27" ++ s ++ "\x27"
  | Value.list xs => "[" ++ pyReprSeq xs ++ "]"
  | Value.dict kvs => "\x7b" ++ pyReprDict kvs ++ "\x7d"

/-- Comma-separated `repr` of the elements of a Python list. -/
def pyReprSeq : List Value → String
  | [] => ""
  | [v] => pyRepr v
  | v :: vs => pyRepr v ++ ", " ++ pyReprSeq vs

/-- Comma-separated `repr` of the entries of a Python dict. -/
def pyReprDict : List (String × Value) → String
  | [] => ""
  | [(k, v)] => "\x27" ++ k ++ "\x27: " ++ pyRepr v
  | (k, v) :: kvs => "\x27" ++ k ++ "\x27: " ++ pyRepr v ++ ", " ++ pyReprDict kvs

end

/-- Python `str` of a `Value`, as interpolated by an f-string. -/
def pyStr : Value → String
  | Value.str s => s
  | v => pyRepr v

mutual

/-- Python `json.dumps` of a `Value` with default separators.  String
escaping is elided: the claims never exercise it. -/
def jsonDumps : Value → String
  | Value.none => "null"
  | Value.bool true => "true"
  | Value.bool false => "false"
  | Value.int n => toString n
  | Value.str s => "\"" ++ s ++ "\""
  | Value.list xs => "[" ++ jsonDumpsSeq xs ++ "]"
  | Value.dict kvs => "\x7b" ++ jsonDumpsDict kvs ++ "\x7d"

/-- Comma-separated `json.dumps` of the elements of a list. -/
def jsonDumpsSeq : List Value → String
  | [] => ""
  | [v] => jsonDumps v
  | v :: vs => jsonDumps v ++ ", " ++ jsonDumpsSeq vs

/-- Comma-separated `json.dumps` of the entries of a dict. -/
def jsonDumpsDict : List (String × Value) → String
  | [] => ""
  | [(k, v)] => "\"" ++ k ++ "\": " ++ jsonDumps v
  | (k, v) :: kvs => "\"" ++ k ++ "\": " ++ jsonDumps v ++ ", " ++ jsonDumpsDict kvs

end

/-- Python `str(e)` for a raised exception, as interpolated into the
error texts.  `KeyError` stringifies to the quoted key. -/
def errStr : PyErr → String
  | PyErr.attributeError m => m
  | PyErr.keyError k => "\x27" ++ k ++ "\x27"
  | PyErr.typeError m => m
  | PyErr.valueError m => m
  | PyErr.indexError m => m
  | PyErr.external m => m

/-- Python `v.get(k)` (attribute call on a dict, default `None`): raises
`AttributeError` when `v` is not a dict. -/
def pyGetAttr : Value → String → Except PyErr Value
  | Value.dict kvs, k => Except.ok ((List.lookup k kvs).getD Value.none)
  | _, _ => Except.error (PyErr.attributeError "object has no attribute get")

/-- Python `v.get(k, d)` with an explicit default. -/
def pyGetAttrD : Value → String → Value → Except PyErr Value
  | Value.dict kvs, k, d => Except.ok ((List.lookup k kvs).getD d)
  | _, _, _ => Except.error (PyErr.attributeError "object has no attribute get")

/-- Python `v[k]` for a string key: `KeyError` when the key is missing,
`TypeError` when `v` is not a dict. -/
def pySubscript : Value → String → Except PyErr Value
  | Value.dict kvs, k =>
      match List.lookup k kvs with
      | some v => Except.ok v
      | Option.none => Except.error (PyErr.keyError k)
  | _, k => Except.error (PyErr.typeError ("value is not subscriptable by " ++ k))

/-- Python `v[0]`. -/
def pyIndex0 : Value → Except PyErr Value
  | Value.list [] => Except.error (PyErr.indexError "list index out of range")
  | Value.list (x :: _) => Except.ok x
  | Value.str s =>
      match s.toList with
      | [] => Except.error (PyErr.indexError "string index out of range")
      | c :: _ => Except.ok (Value.str (String.singleton c))
  | _ => Except.error (PyErr.typeError "value is not subscriptable by 0")

/-- Python iteration `for x in v`.  Lists yield elements, strings yield
characters, dicts yield their keys; other values raise `TypeError`. -/
def pyIter : Value → Except PyErr (List Value)
  | Value.list xs => Except.ok xs
  | Value.str s => Except.ok (s.toList.map (fun c => Value.str (String.singleton c)))
  | Value.dict kvs => Except.ok (kvs.map (fun kv => Value.str kv.1))
  | _ => Except.error (PyErr.typeError "value is not iterable")

/-- Per-invocation argument bag: the `arguments` dict of a tool call. -/
abbrev ArgBag := List (String × Value)

/-- Python `arguments.get(k)` on a (non-`None`) argument bag. -/
def bagGet (bag : ArgBag) (k : String) : Value :=
  (List.lookup k bag).getD Value.none

/-- One MCP text content block (`types.TextContent`). -/
structure TextContent where
  type : String
  text : String
deriving DecidableEq

/-- Helper mirroring `[types.TextContent(type="text", text=t)]`, the
result shape every handler returns. -/
def mkText (t : String) : List TextContent :=
  [⟨"text", t⟩]

/-- One attempted call against the external Monday client, with the
arguments the handler passed.  A constructor only has fields for the
arguments the source actually passes: `createItem` carries no
parent-item id and `createSubitem` carries no group id. -/
inductive ExtCall where
  | createItem (boardId groupId itemName columnValues : Value) : ExtCall
  | createSubitem (parentItemId subitemName columnValues : Value) : ExtCall
  | getGroupsByBoard (boardIds : Value) : ExtCall
  | customQuery (q : String) : ExtCall
  | createUpdate (itemId updateValue : Value) : ExtCall
  | fetchBoards (limit : Value) : ExtCall
  | changeMultipleColumnValues (boardId itemId columnValues : Value) : ExtCall

/-- The external Monday client (`MondayClient`), as a bundle of oracle
functions: each consumed method either returns a response envelope or
raises.  The behaviour is arbitrary; theorems quantify over it. -/
structure MondayClient where
  create_item : Value → Value → Value → Value → Except PyErr Value
  create_subitem : Value → Value → Value → Except PyErr Value
  get_groups_by_board : Value → Except PyErr Value
  custom_query : String → Except PyErr Value
  create_update : Value → Value → Except PyErr Value
  fetch_boards : Value → Except PyErr Value
  change_multiple_column_values : Value → Value → Value → Except PyErr Value

/-- Outcome of one handler invocation: the returned content blocks (or
the exception that escaped), paired with the external calls attempted,
in order. -/
abbrev HandlerResult := Except PyErr (List TextContent) × List ExtCall

/-- Modelled from the spec: `constants.py` is missing from src/.  Per
section 6 of the spec it only supplies the env-derived workspace base
URL used to build human-facing item links; its concrete value never
matters to a claim. -/
def MONDAY_WORKSPACE_URL : String := "https://workspace.monday.com"

/-- Shared success-path of both create-item handlers
(`tools.py:216-225`, `item.py:132-141`): read `response["data"]`, then
`data.get(id_key).get("id")`, and build the item link.  Any exception
here is caught by the surrounding `try`. -/
def createItemUrlText (response : Value) (boardId : Value) (id_key : String) :
    Except PyErr String := do
  let data ← pySubscript response "data"
  let node ← pyGetAttr data id_key
  let idv ← pyGetAttr node "id"
  pure (MONDAY_WORKSPACE_URL ++ "/boards/" ++ pyStr boardId ++ "/pulses/" ++ pyStr idv)

/-- Shared body of both create-item handlers after the external create
call: a raised external call propagates (it sits outside the `try`),
while envelope parsing is wrapped and converted to an error text. -/
def createItemRender (response : Except PyErr Value) (boardId : Value) (id_key : String)
    (okPrefix errPrefix : String) : Except PyErr (List TextContent) :=
  match response with
  | Except.error e => Except.error e
  | Except.ok resp =>
      match createItemUrlText resp boardId id_key with
      | Except.ok url => Except.ok (mkText (okPrefix ++ url))
      | Except.error e => Except.ok (mkText (errPrefix ++ errStr e))

namespace Tools

/-- Tool name constants from the `ToolName` enum (`tools.py:15-22`). -/
def ToolName.CREATE_ITEM : String := "monday-create-item"

/-- Tool name `monday-get-board-groups`. -/
def ToolName.GET_BOARD_GROUPS : String := "monday-get-board-groups"

/-- Tool name `monday-create-update`. -/
def ToolName.CREATE_UPDATE : String := "monday-create-update"

/-- Tool name `monday-list-boards`. -/
def ToolName.LIST_BOARDS : String := "monday-list-boards"

/-- Tool name `monday-list-items-in-groups`. -/
def ToolName.LIST_ITEMS_IN_GROUPS : String := "monday-list-items-in-groups"

/-- Tool name `monday-list-subitems-in-items`. -/
def ToolName.LIST_SUBITEMS_IN_ITEMS : String := "monday-list-subitems-in-items"

/-- Tool name `monday-get-board-columns`. -/
def ToolName.GET_BOARD_COLUMNS : String := "monday-get-board-columns"

/-- One registered tool definition: name, description, input-schema
properties (property name and declared type) and required-property
list.  Per-property description strings are elided. -/
structure ToolReg where
  name : String
  description : String
  properties : List (String × String)
  required : List String
deriving DecidableEq

/-- The `ServerTools` catalog (`tools.py:25-122`), in source order. -/
def ServerTools : List ToolReg := [
  ⟨ToolName.CREATE_ITEM,
   "Create a new item in a Monday.com Board. Optionally, specify the parent Item ID to create a Sub-item.",
   [("boardId", "string"), ("itemTitle", "string"), ("groupId", "string"),
    ("parentItemId", "string"), ("column_values", "object")],
   ["boardId", "itemTitle"]⟩,
  ⟨ToolName.GET_BOARD_COLUMNS,
   "Get the Columns of a Monday.com Board.",
   [("boardId", "string")],
   ["boardId"]⟩,
  ⟨ToolName.GET_BOARD_GROUPS,
   "Get the Groups of a Monday.com Board.",
   [("boardId", "string")],
   ["boardId"]⟩,
  ⟨ToolName.CREATE_UPDATE,
   "Create an update (comment) on a Monday.com item",
   [("itemId", "string"), ("updateText", "string")],
   ["itemId", "updateText"]⟩,
  ⟨ToolName.LIST_BOARDS,
   "Get all boards from Monday.com",
   [("limit", "integer")],
   []⟩,
  ⟨ToolName.LIST_ITEMS_IN_GROUPS,
   "List all items in the specified groups of a Monday.com board",
   [("boardId", "string"), ("groupIds", "array"), ("limit", "integer"), ("cursor", "string")],
   ["boardId", "groupIds"]⟩,
  ⟨ToolName.LIST_SUBITEMS_IN_ITEMS,
   "List all Sub-items of a list of Monday Items",
   [("itemIds", "array")],
   ["itemIds"]⟩]

/-- Names of the catalog tools, in catalog order. -/
def catalogNames : List String := ServerTools.map ToolReg.name

theorem catalogNames_eq : catalogNames =
    ["monday-create-item", "monday-get-board-columns", "monday-get-board-groups",
     "monday-create-update", "monday-list-boards", "monday-list-items-in-groups",
     "monday-list-subitems-in-items"] := rfl

/-- Handler `handle_monday_create_item` (`tools.py:186-232`). -/
def handle_monday_create_item (monday_client : MondayClient)
    (boardId itemTitle groupId parentItemId column_values : Value) : HandlerResult :=
  if parentItemId.isNone && !groupId.isNone then
    (createItemRender (monday_client.create_item boardId groupId itemTitle column_values)
       boardId "create_item" "Created a new Monday item. URL: " "Error creating Monday item: ",
     [ExtCall.createItem boardId groupId itemTitle column_values])
  else if !parentItemId.isNone && groupId.isNone then
    (createItemRender (monday_client.create_subitem parentItemId itemTitle column_values)
       boardId "create_subitem" "Created a new Monday item. URL: " "Error creating Monday item: ",
     [ExtCall.createSubitem parentItemId itemTitle column_values])
  else
    (Except.ok (mkText "You can set either groupId or parentItemId argument, but not both."),
     [])

/-- Handler `handle_monday_get_board_groups` (`tools.py:235-245`):
`response["data"]` is read with no exception handling, so a raised
client call or a missing key propagates. -/
def handle_monday_get_board_groups (monday_client : MondayClient) (boardId : Value) :
    HandlerResult :=
  (match monday_client.get_groups_by_board boardId with
   | Except.error e => Except.error e
   | Except.ok response =>
       (pySubscript response "data").map
         (fun d => mkText ("Got the groups of a Monday board. " ++ jsonDumps d)),
   [ExtCall.getGroupsByBoard boardId])

/-- The GraphQL query built by `handle_monday_get_board_columns`
(`tools.py:252-262`). -/
def getBoardColumnsQuery (boardId : Value) : String :=
  "\n        query \x7b\n            boards(ids: " ++ pyStr boardId ++
  ") \x7b\n                columns \x7b\n                    id\n                    title\n                    type\n                \x7d\n            \x7d\n        \x7d\n    "

/-- Handler `handle_monday_get_board_columns` (`tools.py:248-269`). -/
def handle_monday_get_board_columns (monday_client : MondayClient) (boardId : Value) :
    HandlerResult :=
  let query := getBoardColumnsQuery boardId
  (match monday_client.custom_query query with
   | Except.error e => Except.error e
   | Except.ok response =>
       Except.ok (mkText ("Got the columns of a Monday board. " ++ jsonDumps response)),
   [ExtCall.customQuery query])

/-- Handler `handle_monday_create_update` (`tools.py:272-283`): the
client response is discarded; a raised client call propagates. -/
def handle_monday_create_update (monday_client : MondayClient) (itemId updateText : Value) :
    HandlerResult :=
  (match monday_client.create_update itemId updateText with
   | Except.error e => Except.error e
   | Except.ok _ =>
       Except.ok (mkText ("Created new update on Monday item: " ++ pyStr updateText)),
   [ExtCall.createUpdate itemId updateText])

/-- Formatting of one board line, `f"- {board['name']} (ID: {board['id']})"`
(`tools.py:294`). -/
def formatBoardLine (board : Value) : Except PyErr String := do
  let n ← pySubscript board "name"
  let i ← pySubscript board "id"
  pure ("- " ++ pyStr n ++ " (ID: " ++ pyStr i ++ ")")

/-- Parsing and formatting of the `fetch_boards` envelope
(`tools.py:291-295`): `response["data"]["boards"]` then a joined line
per board, all without exception handling. -/
def formatBoardList (response : Value) : Except PyErr String := do
  let d ← pySubscript response "data"
  let bs ← pySubscript d "boards"
  match bs with
  | Value.list boards => do
      let lines ← boards.mapM formatBoardLine
      pure (String.intercalate "\n" lines)
  | _ => Except.error (PyErr.typeError "value is not iterable")

/-- Handler `handle_monday_list_boards` (`tools.py:286-301`), default
`limit=100`. -/
def handle_monday_list_boards (monday_client : MondayClient)
    (limit : Value := Value.int 100) : HandlerResult :=
  (match monday_client.fetch_boards limit with
   | Except.error e => Except.error e
   | Except.ok response =>
       (formatBoardList response).map
         (fun board_list => mkText ("Available Monday.com Boards:\n" ++ board_list)),
   [ExtCall.fetchBoards limit])

/-- `", ".join([f'"{group_id}"' for group_id in groupIds])`
(`tools.py:314`). -/
def formattedGroupIds (groupIds : List Value) : String :=
  String.intercalate ", " (groupIds.map (fun group_id => "\"" ++ pyStr group_id ++ "\""))

/-- The `items_page_params` string built by
`handle_monday_list_items_in_groups` (`tools.py:313-325`): a group
filter when `groupIds` is truthy and `cursor` is falsy, otherwise a
cursor parameter; a ` limit: ...` suffix is appended in both cases.
Iterating a non-list `groupIds` raises `TypeError`. -/
def itemsPageParams (groupIds cursor limit : Value) : Except PyErr String :=
  if truthy groupIds && !truthy cursor then
    match groupIds with
    | Value.list gids =>
        Except.ok ("\n            query_params: \x7b\n                rules: [\n                    \x7bcolumn_id: \"group\", compare_value: ["
          ++ formattedGroupIds gids
          ++ "], operator: any_of\x7d\n                ]\n            \x7d\n        "
          ++ " limit: " ++ pyStr limit)
    | _ => Except.error (PyErr.typeError "value is not iterable")
  else
    Except.ok ("cursor: \"" ++ pyStr cursor ++ "\"" ++ " limit: " ++ pyStr limit)

/-- The full GraphQL query of `handle_monday_list_items_in_groups`
(`tools.py:326-343`). -/
def listItemsQuery (boardId : Value) (items_page_params : String) : String :=
  "\n    query \x7b\n        boards (ids: " ++ pyStr boardId ++ ") \x7b\n            items_page (" ++
  items_page_params ++
  ") \x7b\n                cursor\n                items \x7b\n                    id\n                    name\n                    column_values \x7b\n                        id\n                        text\n                        value\n                    \x7d\n                \x7d\n            \x7d\n        \x7d\n    \x7d\n    "

/-- Handler `handle_monday_list_items_in_groups` (`tools.py:304-351`). -/
def handle_monday_list_items_in_groups (monday_client : MondayClient)
    (boardId groupIds : Value) (limit : Value := Value.int 100)
    (cursor : Value := Value.none) : HandlerResult :=
  match itemsPageParams groupIds cursor limit with
  | Except.error e => (Except.error e, [])
  | Except.ok params =>
      let query := listItemsQuery boardId params
      (match monday_client.custom_query query with
       | Except.error e => Except.error e
       | Except.ok response =>
           Except.ok (mkText ("Items in groups " ++ pyStr groupIds ++ " of Monday board " ++
             pyStr boardId ++ ": " ++ jsonDumps response)),
       [ExtCall.customQuery query])

/-- Underlying element collection of a Python string join: stops with
`TypeError` at the first non-string element. -/
def strElems : List Value → Except PyErr (List String)
  | [] => Except.ok []
  | Value.str s :: rest => (strElems rest).map (fun ss => s :: ss)
  | _ :: _ => Except.error (PyErr.typeError "sequence item: expected str instance")

/-- Python `str`-typed list join `sep.join(v)`: `TypeError` unless every
element is a string (a string argument joins its characters). -/
def pyJoin (sep : String) (v : Value) : Except PyErr String :=
  match v with
  | Value.list xs => (strElems xs).map (fun ss => String.intercalate sep ss)
  | Value.str s => Except.ok (String.intercalate sep (s.toList.map String.singleton))
  | _ => Except.error (PyErr.typeError "can only join an iterable")

/-- The GraphQL query of `handle_monday_list_subitems_in_items`
(`tools.py:359-375`). -/
def listSubitemsQuery (formatted_item_ids : String) : String :=
  "query\n        \x7b\n            items ([" ++ formatted_item_ids ++
  "]) \x7b\n                subitems \x7b\n                    id\n                    name\n                    parent_item \x7b\n                        id\n                    \x7d\n                    column_values \x7b\n                        id\n                        text\n                        value\n                    \x7d\n                \x7d\n            \x7d\n        \x7d"

/-- Handler `handle_monday_list_subitems_in_items` (`tools.py:354-383`). -/
def handle_monday_list_subitems_in_items (monday_client : MondayClient) (itemIds : Value) :
    HandlerResult :=
  match pyJoin ", " itemIds with
  | Except.error e => (Except.error e, [])
  | Except.ok formatted_item_ids =>
      let query := listSubitemsQuery formatted_item_ids
      (match monday_client.custom_query query with
       | Except.error e => Except.error e
       | Except.ok response =>
           Except.ok (mkText ("Sub-items of Monday items " ++ pyStr itemIds ++ ": " ++
             jsonDumps response)),
       [ExtCall.customQuery query])

/-- The `AttributeError` raised by `arguments.get(...)` when the
dispatcher receives `arguments=None`. -/
def noneGetError : PyErr :=
  PyErr.attributeError "NoneType object has no attribute get"

/-- Dispatcher `handle_call_tool` (`tools.py:130-183`).  The Python
`match` on `name` is a sequence of equality tests against the
`ToolName` members; the `case _` arm raises `ValueError`.  The
surrounding `try` logs a failure and re-raises it unchanged, so it is
the identity on the outcome.  Each case reads its arguments with
`arguments.get(...)`, which raises `AttributeError` when `arguments` is
`None`; the `monday-list-boards` case reads no arguments at all (and in
particular never forwards a supplied `limit`). -/
def handle_call_tool (monday_client : MondayClient) (name : String)
    (arguments : Option ArgBag) : HandlerResult :=
  if name = ToolName.CREATE_ITEM then
    match arguments with
    | Option.none => (Except.error noneGetError, [])
    | some args =>
        handle_monday_create_item monday_client (bagGet args "boardId")
          (bagGet args "itemTitle") (bagGet args "groupId")
          (bagGet args "parentItemId") (bagGet args "column_values")
  else if name = ToolName.GET_BOARD_COLUMNS then
    match arguments with
    | Option.none => (Except.error noneGetError, [])
    | some args => handle_monday_get_board_columns monday_client (bagGet args "boardId")
  else if name = ToolName.GET_BOARD_GROUPS then
    match arguments with
    | Option.none => (Except.error noneGetError, [])
    | some args => handle_monday_get_board_groups monday_client (bagGet args "boardId")
  else if name = ToolName.CREATE_UPDATE then
    match arguments with
    | Option.none => (Except.error noneGetError, [])
    | some args =>
        handle_monday_create_update monday_client (bagGet args "itemId")
          (bagGet args "updateText")
  else if name = ToolName.LIST_BOARDS then
    handle_monday_list_boards monday_client
  else if name = ToolName.LIST_ITEMS_IN_GROUPS then
    match arguments with
    | Option.none => (Except.error noneGetError, [])
    | some args =>
        handle_monday_list_items_in_groups monday_client (bagGet args "boardId")
          (bagGet args "groupIds") (bagGet args "limit") (bagGet args "cursor")
  else if name = ToolName.LIST_SUBITEMS_IN_ITEMS then
    match arguments with
    | Option.none => (Except.error noneGetError, [])
    | some args => handle_monday_list_subitems_in_items monday_client (bagGet args "itemIds")
  else
    (Except.error (PyErr.valueError ("Undefined behaviour for tool: " ++ name)), [])

end Tools

namespace Item

/-- Handler `handle_monday_create_item` (`item.py:102-148`).  Identical
to the `tools.py` variant except for the `columnValues` argument name
and the `Monday.com` wording of the result texts. -/
def handle_monday_create_item (monday_client : MondayClient)
    (boardId itemTitle groupId parentItemId columnValues : Value) : HandlerResult :=
  if parentItemId.isNone && !groupId.isNone then
    (createItemRender (monday_client.create_item boardId groupId itemTitle columnValues)
       boardId "create_item" "Created a new Monday.com item. URL: "
       "Error creating Monday.com item: ",
     [ExtCall.createItem boardId groupId itemTitle columnValues])
  else if !parentItemId.isNone && groupId.isNone then
    (createItemRender (monday_client.create_subitem parentItemId itemTitle columnValues)
       boardId "create_subitem" "Created a new Monday.com item. URL: "
       "Error creating Monday.com item: ",
     [ExtCall.createSubitem parentItemId itemTitle columnValues])
  else
    (Except.ok (mkText "You can set either groupId or parentItemId argument, but not both."),
     [])

/-- The GraphQL query built by `handle_monday_update_item_name`
(`item.py:351-374`): items of the given group of the given board,
page size 50. -/
def updateItemNameQuery (boardId groupId : Value) : String :=
  "\n        query \x7b\n            boards (ids: " ++ pyStr boardId ++
  ") \x7b\n                items_page (\n                    query_params: \x7b\n                        rules: [\n                            \x7bcolumn_id: \"group\", compare_value: [\"" ++
  pyStr groupId ++
  "\"], operator: any_of\x7d\n                        ]\n                    \x7d\n                    limit: 50\n                ) \x7b\n                    items \x7b\n                        id\n                        name\n                        column_values \x7b\n                            id\n                            text\n                            value\n                        \x7d\n                    \x7d\n                \x7d\n            \x7d\n        \x7d\n        "

/-- The linear scan of `handle_monday_update_item_name`
(`item.py:396-402`): walk the returned items in order, stop at the
first whose `name` compares equal to `itemName`, and take its `id`;
`None` when nothing matches.  `item.get(...)` raises on a non-dict
item. -/
def findItemByName (items : List Value) (itemName : Value) : Except PyErr Value :=
  match items with
  | [] => Except.ok Value.none
  | item :: rest =>
      match pyGetAttr item "name" with
      | Except.error e => Except.error e
      | Except.ok n =>
          if valueBeq n itemName then pyGetAttr item "id"
          else findItemByName rest itemName

/-- The status column-value map sent by the compound handler
(`item.py:414-416`): a single column named `status` with a label-style
value. -/
def statusColumnValues (statusValue : Value) : Value :=
  Value.dict [("status", Value.dict [("label", statusValue)])]

/-- The response-parsing phase of `handle_monday_update_item_name`
(`item.py:378-410`), between the group query and the column update.
Yields either an early text result (board/group empty, or name not
found) or the id of the item to update; a raised exception surfaces as
an error for the surrounding `try` to catch.  The steps mirror the
source order: the truthiness guard with `.get` chains, the
re-subscripting of `response["data"]["boards"]`, the second guard, the
subscripting of `boards[0]["items_page"]["items"]`, the scan, and the
not-found text that lists `[item.get('name') for item in items]`. -/
def updateItemNamePhase2 (response boardId groupId itemName : Value) :
    Except PyErr (Sum (List TextContent) Value) :=
  if !truthy response then
    Except.ok (Sum.inl (mkText ("Error: Board " ++ pyStr boardId ++
      " not found or no data returned")))
  else
    match (do
        let d ← pyGetAttrD response "data" (Value.dict [])
        pyGetAttr d "boards" : Except PyErr Value) with
    | Except.error e => Except.error e
    | Except.ok guard1 =>
        if !truthy guard1 then
          Except.ok (Sum.inl (mkText ("Error: Board " ++ pyStr boardId ++
            " not found or no data returned")))
        else
          match (do
              let d ← pySubscript response "data"
              pySubscript d "boards" : Except PyErr Value) with
          | Except.error e => Except.error e
          | Except.ok boards =>
              if !truthy boards then
                Except.ok (Sum.inl (mkText ("Error: No items found in board " ++
                  pyStr boardId ++ ", group " ++ pyStr groupId)))
              else
                match (do
                    let b0 ← pyIndex0 boards
                    let ip ← pyGetAttrD b0 "items_page" (Value.dict [])
                    pyGetAttr ip "items" : Except PyErr Value) with
                | Except.error e => Except.error e
                | Except.ok guard2 =>
                    if !truthy guard2 then
                      Except.ok (Sum.inl (mkText ("Error: No items found in board " ++
                        pyStr boardId ++ ", group " ++ pyStr groupId)))
                    else
                      match (do
                          let b0 ← pyIndex0 boards
                          let ip ← pySubscript b0 "items_page"
                          pySubscript ip "items" : Except PyErr Value) with
                      | Except.error e => Except.error e
                      | Except.ok itemsV =>
                          match pyIter itemsV with
                          | Except.error e => Except.error e
                          | Except.ok items =>
                              match findItemByName items itemName with
                              | Except.error e => Except.error e
                              | Except.ok target_item_id =>
                                  if !truthy target_item_id then
                                    match items.mapM (fun item => pyGetAttr item "name") with
                                    | Except.error e => Except.error e
                                    | Except.ok names =>
                                        Except.ok (Sum.inl (mkText ("Error: Item with name \x27" ++
                                          pyStr itemName ++ "\x27 not found in group " ++
                                          pyStr groupId ++ ". Available items: " ++
                                          pyStr (Value.list names))))
                                  else Except.ok (Sum.inr target_item_id)

/-- The body of `handle_monday_update_item_name` inside its `try`
(`item.py:349-427`): the group query, the parsing phase, and when an
item was resolved, the status-column update and the success text. -/
def updateItemNameBody (monday_client : MondayClient)
    (boardId groupId itemName statusValue : Value) :
    Except PyErr (List TextContent) × List ExtCall :=
  let query := updateItemNameQuery boardId groupId
  match monday_client.custom_query query with
  | Except.error e => (Except.error e, [ExtCall.customQuery query])
  | Except.ok response =>
      match updateItemNamePhase2 response boardId groupId itemName with
      | Except.error e => (Except.error e, [ExtCall.customQuery query])
      | Except.ok (Sum.inl earlyText) => (Except.ok earlyText, [ExtCall.customQuery query])
      | Except.ok (Sum.inr target_item_id) =>
          let column_values := statusColumnValues statusValue
          (match monday_client.change_multiple_column_values boardId target_item_id
              column_values with
           | Except.error e => Except.error e
           | Except.ok update_response =>
               Except.ok (mkText ("Successfully updated item \x27" ++ pyStr itemName ++
                 "\x27 (ID: " ++ pyStr target_item_id ++ ") status to \x27" ++
                 pyStr statusValue ++ "\x27. Response: " ++ jsonDumps update_response)),
           [ExtCall.customQuery query,
            ExtCall.changeMultipleColumnValues boardId target_item_id column_values])

/-- Handler `handle_monday_update_item_name` (`item.py:325-435`).  The
whole body runs inside `try`; any exception is caught and converted to
an error text (`item.py:429-435`), so the handler always returns a
content list. -/
def handle_monday_update_item_name (monday_client : MondayClient)
    (boardId groupId itemName statusValue : Value) :
    List TextContent × List ExtCall :=
  match updateItemNameBody monday_client boardId groupId itemName statusValue with
  | (Except.ok result, calls) => (result, calls)
  | (Except.error e, calls) =>
      (mkText ("Error updating item \x27" ++ pyStr itemName ++ "\x27: " ++ errStr e), calls)

end Item

namespace Spec

/-- One tool definition of the protocol-facing catalog: name, required
argument names (marked required in the input schema) and optional
argument names. -/
structure ToolDefinition where
  name : String
  required : List String
  optional : List String
deriving DecidableEq

/-- Modelled from the spec: the richer tool registry module (the server
module that registers the `item.py` handlers, described by spec
sections 4.1 and 9) is not under src/ — only its handlers in `item.py`
and its tests are.  This is `listTools()` per the required tool set
table of spec section 4.1, one definition per row, in table order.  In
the model it is a constant, hence deterministic and side-effect-free. -/
def listTools : List ToolDefinition := [
  ⟨"create-item", ["boardId", "itemTitle"], ["groupId", "parentItemId", "columnValues"]⟩,
  ⟨"get-board-groups", ["boardId"], []⟩,
  ⟨"get-board-columns", ["boardId"], []⟩,
  ⟨"create-update", ["itemId", "updateText"], []⟩,
  ⟨"list-boards", [], ["limit"]⟩,
  ⟨"list-items-in-groups", ["boardId", "groupIds"], ["limit", "cursor"]⟩,
  ⟨"list-subitems-in-items", ["itemIds"], []⟩,
  ⟨"update-item", ["boardId", "itemId", "columnValues"], []⟩,
  ⟨"get-item-by-id", ["itemId"], []⟩,
  ⟨"get-item-updates", ["itemId"], ["limit"]⟩,
  ⟨"move-item-to-group", ["itemId", "groupId"], []⟩,
  ⟨"delete-item", ["itemId"], []⟩,
  ⟨"archive-item", ["itemId"], []⟩,
  ⟨"update-item-name", ["boardId", "groupId", "itemName", "statusValue"], []⟩]

/-- The names of the required tool set of spec section 4.1. -/
def requiredToolNames : List String :=
  ["create-item", "get-board-groups", "get-board-columns", "create-update",
   "list-boards", "list-items-in-groups", "list-subitems-in-items", "update-item",
   "get-item-by-id", "get-item-updates", "move-item-to-group", "delete-item",
   "archive-item", "update-item-name"]

end Spec

/-- Value shape check: is the value a string? -/
def isStrV : Value → Bool
  | Value.str _ => true
  | _ => false

/-- Value shape check: is the value an integer? -/
def isIntV : Value → Bool
  | Value.int _ => true
  | _ => false

/-- Value shape check: is the value a dict? -/
def isDictV : Value → Bool
  | Value.dict _ => true
  | _ => false

/-- Value shape check: is the value a list of strings? -/
def isListOfStr : Value → Bool
  | Value.list xs => xs.all isStrV
  | _ => false

/-- Shape check for an optional argument: absent (`None`) or of the
given shape. -/
def optV (p : Value → Bool) (v : Value) : Bool :=
  v.isNone || p v

namespace Tools

/-- Does the argument bag match the input schema a tool declares in
`ServerTools` (`tools.py:25-122`)?  Required properties present with
their declared type, optional properties absent or of their declared
type.  (JSON-schema `object` maps to dict, `array` of strings to list
of strings, `integer` to int.) -/
def validArgsB (name : String) (bag : ArgBag) : Bool :=
  if name = ToolName.CREATE_ITEM then
    isStrV (bagGet bag "boardId") && isStrV (bagGet bag "itemTitle") &&
    optV isStrV (bagGet bag "groupId") && optV isStrV (bagGet bag "parentItemId") &&
    optV isDictV (bagGet bag "column_values")
  else if name = ToolName.GET_BOARD_COLUMNS then
    isStrV (bagGet bag "boardId")
  else if name = ToolName.GET_BOARD_GROUPS then
    isStrV (bagGet bag "boardId")
  else if name = ToolName.CREATE_UPDATE then
    isStrV (bagGet bag "itemId") && isStrV (bagGet bag "updateText")
  else if name = ToolName.LIST_BOARDS then
    optV isIntV (bagGet bag "limit")
  else if name = ToolName.LIST_ITEMS_IN_GROUPS then
    isStrV (bagGet bag "boardId") && isListOfStr (bagGet bag "groupIds") &&
    optV isIntV (bagGet bag "limit") && optV isStrV (bagGet bag "cursor")
  else if name = ToolName.LIST_SUBITEMS_IN_ITEMS then
    isListOfStr (bagGet bag "itemIds")
  else
    false

/-- A well-behaved external client: every consumed method returns
normally, and the envelopes that handlers read without exception
handling (`get_groups_by_board` and `fetch_boards`) are well-formed
enough for those reads. -/
structure WellBehaved (c : MondayClient) : Prop where
  create_item_ok : ∀ b g t cv, ∃ v, c.create_item b g t cv = Except.ok v
  create_subitem_ok : ∀ p t cv, ∃ v, c.create_subitem p t cv = Except.ok v
  groups_ok : ∀ b, ∃ v d, c.get_groups_by_board b = Except.ok v ∧
    pySubscript v "data" = Except.ok d
  custom_ok : ∀ q, ∃ v, c.custom_query q = Except.ok v
  update_ok : ∀ i u, ∃ v, c.create_update i u = Except.ok v
  boards_ok : ∀ l, ∃ v s, c.fetch_boards l = Except.ok v ∧ formatBoardList v = Except.ok s

end Tools

/-- A concrete client whose every method returns a plausible
well-formed envelope; used to instantiate theorems with hypotheses. -/
def okClient : MondayClient where
  create_item := fun _ _ _ _ =>
    Except.ok (Value.dict [("data", Value.dict [("create_item",
      Value.dict [("id", Value.int 1)])])])
  create_subitem := fun _ _ _ =>
    Except.ok (Value.dict [("data", Value.dict [("create_subitem",
      Value.dict [("id", Value.int 2)])])])
  get_groups_by_board := fun _ =>
    Except.ok (Value.dict [("data", Value.dict [("boards", Value.list [])])])
  custom_query := fun _ =>
    Except.ok (Value.dict [("data", Value.dict [])])
  create_update := fun _ _ => Except.ok (Value.dict [])
  fetch_boards := fun _ =>
    Except.ok (Value.dict [("data", Value.dict [("boards",
      Value.list [Value.dict [("name", Value.str "Board"), ("id", Value.str "1")]])])])
  change_multiple_column_values := fun _ _ _ => Except.ok (Value.dict [])

/-- A concrete client whose every method raises a transport error. -/
def errClient : MondayClient where
  create_item := fun _ _ _ _ => Except.error (PyErr.external "network down")
  create_subitem := fun _ _ _ => Except.error (PyErr.external "network down")
  get_groups_by_board := fun _ => Except.error (PyErr.external "network down")
  custom_query := fun _ => Except.error (PyErr.external "network down")
  create_update := fun _ _ => Except.error (PyErr.external "network down")
  fetch_boards := fun _ => Except.error (PyErr.external "network down")
  change_multiple_column_values := fun _ _ _ => Except.error (PyErr.external "network down")

/-- The group-items list of spec section 8: items named Alpha, McpTest,
Beta, McpTest (a duplicate), with distinct ids, in server order. -/
def demoItems : List Value :=
  [Value.dict [("id", Value.str "101"), ("name", Value.str "Alpha")],
   Value.dict [("id", Value.str "102"), ("name", Value.str "McpTest")],
   Value.dict [("id", Value.str "103"), ("name", Value.str "Beta")],
   Value.dict [("id", Value.str "104"), ("name", Value.str "McpTest")]]

/-- A well-formed group-query response envelope holding `demoItems`. -/
def demoResponse : Value :=
  Value.dict [("data", Value.dict [("boards", Value.list
    [Value.dict [("items_page", Value.dict [("items", Value.list demoItems)])]])])]

/-- A concrete client whose group query returns `demoResponse` and
whose column update succeeds; the methods the compound handler never
touches raise. -/
def demoUpdateClient : MondayClient where
  create_item := fun _ _ _ _ => Except.error (PyErr.external "unused")
  create_subitem := fun _ _ _ => Except.error (PyErr.external "unused")
  get_groups_by_board := fun _ => Except.error (PyErr.external "unused")
  custom_query := fun _ => Except.ok demoResponse
  create_update := fun _ _ => Except.error (PyErr.external "unused")
  fetch_boards := fun _ => Except.error (PyErr.external "unused")
  change_multiple_column_values := fun _ _ _ => Except.ok (Value.dict [])

/-- A concrete client whose `create_item` returns an envelope carrying
the numeric id 4242. -/
def createOkClient : MondayClient where
  create_item := fun _ _ _ _ =>
    Except.ok (Value.dict [("data", Value.dict [("create_item",
      Value.dict [("id", Value.int 4242)])])])
  create_subitem := fun _ _ _ => Except.error (PyErr.external "unused")
  get_groups_by_board := fun _ => Except.error (PyErr.external "unused")
  custom_query := fun _ => Except.error (PyErr.external "unused")
  create_update := fun _ _ => Except.error (PyErr.external "unused")
  fetch_boards := fun _ => Except.error (PyErr.external "unused")
  change_multiple_column_values := fun _ _ _ => Except.error (PyErr.external "unused")

/-- Reformulation of the spec wording for the compound handler scan
(spec section 4.4 step 2 and the C5 tie-break sentence): the chosen
item is the first, in server-returned order, whose `name` equals the
requested name exactly; its `id` is taken, `None` when nothing
matches.  Stated over dict items via total lookups, to be compared
with `Item.findItemByName` compiled from the source loop. -/
def specChosenId (items : List Value) (itemName : Value) : Value :=
  match items.find? (fun item =>
      match item with
      | Value.dict kvs => valueBeq ((List.lookup "name" kvs).getD Value.none) itemName
      | _ => false) with
  | some (Value.dict kvs) => (List.lookup "id" kvs).getD Value.none
  | _ => Value.none

/-! Theorems.  Each claim has exactly one theorem; helper lemmas are
shared infrastructure. -/

theorem except_ok_bind {ε α β : Type} (a : α) (f : α → Except ε β) :
    (Except.ok a : Except ε α) >>= f = f a := rfl

theorem except_error_bind {ε α β : Type} (e : ε) (f : α → Except ε β) :
    (Except.error e : Except ε α) >>= f = Except.error e := rfl

theorem except_pure {ε α : Type} (a : α) : (pure a : Except ε α) = Except.ok a := rfl

theorem value_none_isNone : Value.none.isNone = true := rfl

theorem okClient_wellBehaved : Tools.WellBehaved okClient := by
  refine ⟨?_, ?_, ?_, ?_, ?_, ?_⟩
  · intro b g t cv; exact ⟨_, rfl⟩
  · intro p t cv; exact ⟨_, rfl⟩
  · intro b; exact ⟨_, _, rfl, rfl⟩
  · intro q; exact ⟨_, rfl⟩
  · intro i u; exact ⟨_, rfl⟩
  · intro l; exact ⟨_, _, rfl, rfl⟩

/-- C1: for every tool name that is not in the catalog, the dispatcher
`handle_call_tool` with that name and any argument bag (present or
`None`) raises the unknown-tool `ValueError` of `tools.py:179`; it
returns no content and attempts no external call. -/
theorem handle_call_tool_unknown_tool (monday_client : MondayClient) (name : String)
    (arguments : Option ArgBag) (h : name ∉ Tools.catalogNames) :
    Tools.handle_call_tool monday_client name arguments =
      (Except.error (PyErr.valueError ("Undefined behaviour for tool: " ++ name)), []) := by
  rw [Tools.catalogNames_eq] at h
  simp only [List.mem_cons, List.not_mem_nil, or_false, not_or] at h
  obtain ⟨h1, h2, h3, h4, h5, h6, h7⟩ := h
  simp only [Tools.handle_call_tool, Tools.ToolName.CREATE_ITEM,
    Tools.ToolName.GET_BOARD_COLUMNS, Tools.ToolName.GET_BOARD_GROUPS,
    Tools.ToolName.CREATE_UPDATE, Tools.ToolName.LIST_BOARDS,
    Tools.ToolName.LIST_ITEMS_IN_GROUPS, Tools.ToolName.LIST_SUBITEMS_IN_ITEMS,
    if_neg h1, if_neg h2, if_neg h3, if_neg h4, if_neg h5, if_neg h6, if_neg h7]

theorem handle_call_tool_unknown_tool_witness :
    Tools.handle_call_tool okClient "bogus-tool" Option.none =
      (Except.error (PyErr.valueError ("Undefined behaviour for tool: " ++ "bogus-tool")), []) :=
  handle_call_tool_unknown_tool okClient "bogus-tool" Option.none (by decide)

/-- C9 (code bug): the `monday-list-boards` case of the dispatcher
(`tools.py:161-162`) invokes `handle_monday_list_boards` without
forwarding the `limit` argument, although the tool input schema
declares `limit` and the handler accepts it.  For every client, a call
with `{"limit": 5}` in the argument bag still issues the external
`fetch_boards` with the handler default 100. -/
theorem list_boards_limit_not_forwarded (monday_client : MondayClient) :
    (Tools.handle_call_tool monday_client Tools.ToolName.LIST_BOARDS
        (some [("limit", Value.int 5)])).snd = [ExtCall.fetchBoards (Value.int 100)] := rfl

/-- C3: the protocol-facing catalog (modelled from the spec, since the
richer registry module is absent from src/) holds exactly one tool
definition per required-tool-set row, and the compound and item tools
the claim enumerates carry exactly their listed required arguments. -/
theorem listTools_covers_required_tool_set :
    (Spec.requiredToolNames.all (fun t =>
      (Spec.listTools.filter (fun d => d.name == t)).length == 1)) = true
    ∧ (Spec.listTools.filter (fun d => d.name == "update-item")).map
        Spec.ToolDefinition.required = [["boardId", "itemId", "columnValues"]]
    ∧ (Spec.listTools.filter (fun d => d.name == "get-item-by-id")).map
        Spec.ToolDefinition.required = [["itemId"]]
    ∧ (Spec.listTools.filter (fun d => d.name == "get-item-updates")).map
        Spec.ToolDefinition.required = [["itemId"]]
    ∧ (Spec.listTools.filter (fun d => d.name == "move-item-to-group")).map
        Spec.ToolDefinition.required = [["itemId", "groupId"]]
    ∧ (Spec.listTools.filter (fun d => d.name == "delete-item")).map
        Spec.ToolDefinition.required = [["itemId"]]
    ∧ (Spec.listTools.filter (fun d => d.name == "archive-item")).map
        Spec.ToolDefinition.required = [["itemId"]]
    ∧ (Spec.listTools.filter (fun d => d.name == "update-item-name")).map
        Spec.ToolDefinition.required = [["boardId", "groupId", "itemName", "statusValue"]] := by
  refine ⟨?_, ?_, ?_, ?_, ?_, ?_, ?_, ?_⟩ <;> rfl

/-- C7 (amended): in the `items_page_params` construction of
`handle_monday_list_items_in_groups` (`tools.py:313-325`), a truthy
(non-empty) cursor yields exactly the cursor-and-limit parameter
string with no group filter; a falsy (absent or empty) cursor with a
non-empty `groupIds` list yields exactly the group-filter clause
referencing the supplied group ids, with the limit appended. -/
theorem itemsPageParams_cursor_vs_group_filter (groupIds cursor limit : Value) :
    (truthy cursor = true →
      Tools.itemsPageParams groupIds cursor limit =
        Except.ok ("cursor: \"" ++ pyStr cursor ++ "\"" ++ " limit: " ++ pyStr limit))
    ∧ (∀ gids : List Value, truthy cursor = false → groupIds = Value.list gids →
      gids ≠ [] →
      Tools.itemsPageParams groupIds cursor limit =
        Except.ok ("\n            query_params: \x7b\n                rules: [\n                    \x7bcolumn_id: \"group\", compare_value: ["
          ++ Tools.formattedGroupIds gids
          ++ "], operator: any_of\x7d\n                ]\n            \x7d\n        "
          ++ " limit: " ++ pyStr limit)) := by
  constructor
  · intro hc
    simp [Tools.itemsPageParams, hc]
  · intro gids hc hg hne
    subst hg
    cases gids with
    | nil => exact absurd rfl hne
    | cons g gs =>
        have hg : truthy (Value.list (g :: gs)) = true := by simp [truthy]
        simp [Tools.itemsPageParams, hc, hg]

theorem itemsPageParams_cursor_vs_group_filter_witness :
    Tools.itemsPageParams (Value.list [Value.str "g1"]) (Value.str "cur") (Value.int 10) =
      Except.ok "cursor: \"cur\" limit: 10"
    ∧ Tools.itemsPageParams (Value.list [Value.str "g1", Value.str "g2"]) Value.none
        (Value.int 10) =
      Except.ok ("\n            query_params: \x7b\n                rules: [\n                    \x7bcolumn_id: \"group\", compare_value: [\"g1\", \"g2\"], operator: any_of\x7d\n                ]\n            \x7d\n        "
        ++ " limit: 10") :=
  ⟨(itemsPageParams_cursor_vs_group_filter (Value.list [Value.str "g1"]) (Value.str "cur")
      (Value.int 10)).1 rfl,
   (itemsPageParams_cursor_vs_group_filter (Value.list [Value.str "g1", Value.str "g2"])
      Value.none (Value.int 10)).2 [Value.str "g1", Value.str "g2"] rfl rfl
      (List.cons_ne_nil _ _)⟩

/-- C7 (counterexample to the claim as stated): a supplied but empty
cursor is falsy, so with a non-empty `groupIds` the built parameters
are the group-filter form, not the cursor-and-limit form the claim
requires for every supplied cursor. -/
theorem itemsPageParams_empty_cursor_counterexample :
    (Tools.itemsPageParams (Value.list [Value.str "g1"]) (Value.str "") (Value.int 10)).toOption
      ≠ some "cursor: \"\" limit: 10"
    ∧ (Tools.itemsPageParams (Value.list [Value.str "g1"]) (Value.str "") (Value.int 10)).toOption
      = some ("\n            query_params: \x7b\n                rules: [\n                    \x7bcolumn_id: \"group\", compare_value: [\"g1\"], operator: any_of\x7d\n                ]\n            \x7d\n        "
        ++ " limit: 10") := by
  constructor
  · decide
  · rfl

/-- C4: in the create-item handler (`item.py:111-130`; the `tools.py`
variant at 195-214 is identical in logic), both or neither of
`groupId`/`parentItemId` set yields the conflict text as a returned
result with no external call attempted; exactly one set yields exactly
one external create call — a `create_item` call (which carries no
parent-item id) or a `create_subitem` call (which carries no group
id). -/
theorem create_item_mutual_exclusivity (monday_client : MondayClient)
    (boardId itemTitle groupId parentItemId columnValues : Value) :
    ((groupId.isNone = true ∧ parentItemId.isNone = true) ∨
      (groupId.isNone = false ∧ parentItemId.isNone = false) →
      Item.handle_monday_create_item monday_client boardId itemTitle groupId parentItemId
          columnValues =
        (Except.ok (mkText "You can set either groupId or parentItemId argument, but not both."),
         []))
    ∧ (groupId.isNone = false → parentItemId.isNone = true →
      (Item.handle_monday_create_item monday_client boardId itemTitle groupId parentItemId
          columnValues).snd = [ExtCall.createItem boardId groupId itemTitle columnValues])
    ∧ (groupId.isNone = true → parentItemId.isNone = false →
      (Item.handle_monday_create_item monday_client boardId itemTitle groupId parentItemId
          columnValues).snd = [ExtCall.createSubitem parentItemId itemTitle columnValues]) := by
  refine ⟨?_, ?_, ?_⟩
  · rintro (⟨hg, hp⟩ | ⟨hg, hp⟩) <;>
      simp [Item.handle_monday_create_item, hg, hp]
  · intro hg hp
    simp [Item.handle_monday_create_item, hg, hp]
  · intro hg hp
    simp [Item.handle_monday_create_item, hg, hp]

theorem create_item_mutual_exclusivity_witness :
    Item.handle_monday_create_item okClient (Value.str "b") (Value.str "t") Value.none
        Value.none Value.none =
      (Except.ok (mkText "You can set either groupId or parentItemId argument, but not both."),
       [])
    ∧ (Item.handle_monday_create_item okClient (Value.str "b") (Value.str "t")
        (Value.str "g") Value.none Value.none).snd =
      [ExtCall.createItem (Value.str "b") (Value.str "g") (Value.str "t") Value.none]
    ∧ (Item.handle_monday_create_item okClient (Value.str "b") (Value.str "t") Value.none
        (Value.str "p") Value.none).snd =
      [ExtCall.createSubitem (Value.str "p") (Value.str "t") Value.none] :=
  ⟨(create_item_mutual_exclusivity okClient (Value.str "b") (Value.str "t") Value.none
      Value.none Value.none).1 (Or.inl ⟨rfl, rfl⟩),
   (create_item_mutual_exclusivity okClient (Value.str "b") (Value.str "t") (Value.str "g")
      Value.none Value.none).2.1 rfl rfl,
   (create_item_mutual_exclusivity okClient (Value.str "b") (Value.str "t") Value.none
      (Value.str "p") Value.none).2.2 rfl rfl⟩

/-- C8: when the external create call of the create-item handler
succeeds with an envelope carrying a numeric id
(`{"data": {"create_item": {"id": n}}}`), the returned text is the
success message whose link is
`{workspace base}/boards/{boardId}/pulses/{n}`, with the id rendered
as its decimal digits, byte-for-byte the id of the response
(`item.py:132-141`). -/
theorem create_item_link_roundtrip (monday_client : MondayClient)
    (boardId itemTitle groupId columnValues : Value) (n : Int)
    (hg : groupId.isNone = false)
    (hresp : monday_client.create_item boardId groupId itemTitle columnValues =
      Except.ok (Value.dict [("data", Value.dict [("create_item",
        Value.dict [("id", Value.int n)])])])) :
    (Item.handle_monday_create_item monday_client boardId itemTitle groupId Value.none
        columnValues).fst =
      Except.ok (mkText ("Created a new Monday.com item. URL: " ++ (MONDAY_WORKSPACE_URL ++
        "/boards/" ++ pyStr boardId ++ "/pulses/" ++ toString n))) := by
  simp [Item.handle_monday_create_item, hg, hresp, createItemRender, createItemUrlText,
    pySubscript, pyGetAttr, List.lookup, pyStr, pyRepr, except_ok_bind, except_error_bind,
    except_pure, value_none_isNone]

theorem create_item_link_roundtrip_witness :
    (Item.handle_monday_create_item createOkClient (Value.str "99") (Value.str "T")
        (Value.str "g1") Value.none Value.none).fst =
      Except.ok (mkText ("Created a new Monday.com item. URL: " ++ (MONDAY_WORKSPACE_URL ++
        "/boards/" ++ pyStr (Value.str "99") ++ "/pulses/" ++ toString (4242 : Int)))) :=
  create_item_link_roundtrip createOkClient (Value.str "99") (Value.str "T") (Value.str "g1")
    Value.none 4242 rfl rfl

/-- C5: the compound handler scan picks the first item, in
server-returned order, whose name equals the requested name exactly
(`item.py:396-402`); over the spec list Alpha, McpTest, Beta, McpTest
the request "McpTest" resolves to the first occurrence (id 102) and
drives the column update with that id, while the unmatched request
"Gamma" returns the not-found text that lists every item name of the
group and attempts no update. -/
theorem update_item_name_first_match :
    (∀ (items : List Value) (itemName : Value), items.all isDictV = true →
      Item.findItemByName items itemName = Except.ok (specChosenId items itemName))
    ∧ (Item.handle_monday_update_item_name demoUpdateClient (Value.str "9424670402")
        (Value.str "topics") (Value.str "McpTest") (Value.str "Done")).snd =
      [ExtCall.customQuery
         (Item.updateItemNameQuery (Value.str "9424670402") (Value.str "topics")),
       ExtCall.changeMultipleColumnValues (Value.str "9424670402") (Value.str "102")
         (Item.statusColumnValues (Value.str "Done"))]
    ∧ Item.handle_monday_update_item_name demoUpdateClient (Value.str "9424670402")
        (Value.str "topics") (Value.str "Gamma") (Value.str "Done") =
      (mkText "Error: Item with name \x27Gamma\x27 not found in group topics. Available items: [\x27Alpha\x27, \x27McpTest\x27, \x27Beta\x27, \x27McpTest\x27]",
       [ExtCall.customQuery
          (Item.updateItemNameQuery (Value.str "9424670402") (Value.str "topics"))]) := by
  refine ⟨?_, rfl, rfl⟩
  intro items itemName hdicts
  induction items with
  | nil => rfl
  | cons item rest ih =>
      simp only [List.all_cons, Bool.and_eq_true] at hdicts
      obtain ⟨hd, hrest⟩ := hdicts
      cases item with
      | dict kvs =>
          by_cases hb : valueBeq ((List.lookup "name" kvs).getD Value.none) itemName
          · simp [Item.findItemByName, pyGetAttr, specChosenId, List.find?, hb]
          · simp only [Item.findItemByName, pyGetAttr, specChosenId, List.find?, hb,
              Bool.false_eq_true, if_false, ite_false]
            rw [ih hrest]
            simp [specChosenId]
      | none => simp [isDictV] at hd
      | bool b => simp [isDictV] at hd
      | int n => simp [isDictV] at hd
      | str s => simp [isDictV] at hd
      | list xs => simp [isDictV] at hd

theorem update_item_name_first_match_witness :
    Item.findItemByName demoItems (Value.str "McpTest") =
      Except.ok (specChosenId demoItems (Value.str "McpTest")) :=
  update_item_name_first_match.1 demoItems (Value.str "McpTest") (by decide)

theorem updateItemNamePhase2_inl_shape (response boardId groupId itemName : Value)
    (r : List TextContent)
    (h : Item.updateItemNamePhase2 response boardId groupId itemName =
      Except.ok (Sum.inl r)) : ∃ t, r = mkText t := by
  unfold Item.updateItemNamePhase2 at h
  repeat' split at h
  all_goals simp_all
  all_goals exact ⟨_, h.symm⟩

theorem updateItemNameBody_ok_shape (monday_client : MondayClient)
    (boardId groupId itemName statusValue : Value) (r : List TextContent)
    (calls : List ExtCall)
    (h : Item.updateItemNameBody monday_client boardId groupId itemName statusValue =
      (Except.ok r, calls)) : ∃ t, r = mkText t := by
  simp only [Item.updateItemNameBody] at h
  split at h
  · simp at h
  · split at h
    · simp at h
    · simp at h
      obtain ⟨h1, h2⟩ := h
      rename_i heq
      exact updateItemNamePhase2_inl_shape _ boardId groupId itemName r (h1 ▸ heq)
    · split at h
      · simp at h
      · simp at h
        obtain ⟨h1, h2⟩ := h
        exact ⟨_, h1.symm⟩

/-- C6: the compound handler `handle_monday_update_item_name` never
lets an exception escape: for every client behaviour (including raised
exceptions at either of its two external calls and arbitrary malformed
payloads) and every input, it returns a single text content block
(`item.py:349-435`). -/
theorem update_item_name_never_raises (monday_client : MondayClient)
    (boardId groupId itemName statusValue : Value) :
    ∃ t, (Item.handle_monday_update_item_name monday_client boardId groupId itemName
      statusValue).fst = mkText t := by
  unfold Item.handle_monday_update_item_name
  rcases hbody : Item.updateItemNameBody monday_client boardId groupId itemName statusValue
    with ⟨res, calls⟩
  cases res with
  | error e => simp [hbody]
  | ok r =>
      obtain ⟨t, ht⟩ := updateItemNameBody_ok_shape monday_client boardId groupId itemName
        statusValue r calls hbody
      exact ⟨t, by simp [hbody, ht]⟩

/-- C10 (implicit): called with `arguments=None`, the dispatcher raises
`AttributeError` from the unguarded `arguments.get(...)` for every
catalog tool except `monday-list-boards`, whose case reads no
arguments (`tools.py:130-183`); for `monday-list-boards` the call
proceeds and returns a result whenever the client returns a well-formed
boards envelope. -/
theorem handle_call_tool_none_arguments :
    (∀ (monday_client : MondayClient) (name : String), name ∈ Tools.catalogNames →
      ¬ name = Tools.ToolName.LIST_BOARDS →
      Tools.handle_call_tool monday_client name Option.none =
        (Except.error Tools.noneGetError, []))
    ∧ (∀ monday_client : MondayClient, Tools.WellBehaved monday_client →
      ∃ t, (Tools.handle_call_tool monday_client Tools.ToolName.LIST_BOARDS
        Option.none).fst = Except.ok (mkText t)) := by
  constructor
  · intro monday_client name hmem hne
    rw [Tools.catalogNames_eq] at hmem
    fin_cases hmem
    · rfl
    · rfl
    · rfl
    · rfl
    · exact absurd rfl hne
    · rfl
    · rfl
  · intro monday_client hW
    obtain ⟨v, s, hv, hs⟩ := hW.boards_ok (Value.int 100)
    refine ⟨"Available Monday.com Boards:\n" ++ s, ?_⟩
    show (Tools.handle_monday_list_boards monday_client).fst = _
    simp [Tools.handle_monday_list_boards, hv, hs, Except.map]

theorem handle_call_tool_none_arguments_witness :
    Tools.handle_call_tool okClient Tools.ToolName.CREATE_ITEM Option.none =
      (Except.error Tools.noneGetError, [])
    ∧ ∃ t, (Tools.handle_call_tool okClient Tools.ToolName.LIST_BOARDS Option.none).fst =
      Except.ok (mkText t) :=
  ⟨handle_call_tool_none_arguments.1 okClient Tools.ToolName.CREATE_ITEM (by decide)
     (by decide),
   handle_call_tool_none_arguments.2 okClient okClient_wellBehaved⟩

theorem isListOfStr_shape (v : Value) (h : isListOfStr v = true) :
    ∃ xs, v = Value.list xs ∧ xs.all isStrV = true := by
  cases v with
  | list xs => exact ⟨xs, rfl, h⟩
  | none => simp [isListOfStr] at h
  | bool b => simp [isListOfStr] at h
  | int n => simp [isListOfStr] at h
  | str s => simp [isListOfStr] at h
  | dict kvs => simp [isListOfStr] at h

theorem strElems_ok (xs : List Value) (h : xs.all isStrV = true) :
    ∃ ss, Tools.strElems xs = Except.ok ss := by
  induction xs with
  | nil => exact ⟨[], rfl⟩
  | cons x rest ih =>
      simp only [List.all_cons, Bool.and_eq_true] at h
      obtain ⟨hx, hrest⟩ := h
      obtain ⟨ss, hss⟩ := ih hrest
      cases x with
      | str s => exact ⟨s :: ss, by simp [Tools.strElems, hss, Except.map]⟩
      | none => simp [isStrV] at hx
      | bool b => simp [isStrV] at hx
      | int n => simp [isStrV] at hx
      | list ys => simp [isStrV] at hx
      | dict kvs => simp [isStrV] at hx

theorem itemsPageParams_list_ok (gids : List Value) (cursor limit : Value) :
    ∃ s, Tools.itemsPageParams (Value.list gids) cursor limit = Except.ok s := by
  unfold Tools.itemsPageParams
  split
  · exact ⟨_, rfl⟩
  · exact ⟨_, rfl⟩

theorem validArgsB_list_items_eq (bag : ArgBag) :
    Tools.validArgsB "monday-list-items-in-groups" bag =
      (isStrV (bagGet bag "boardId") && isListOfStr (bagGet bag "groupIds") &&
       optV isIntV (bagGet bag "limit") && optV isStrV (bagGet bag "cursor")) := rfl

theorem validArgsB_subitems_eq (bag : ArgBag) :
    Tools.validArgsB "monday-list-subitems-in-items" bag =
      isListOfStr (bagGet bag "itemIds") := rfl

theorem handle_monday_create_item_returns (monday_client : MondayClient)
    (hW : Tools.WellBehaved monday_client) (boardId itemTitle groupId parentItemId cv : Value) :
    ∃ r, (Tools.handle_monday_create_item monday_client boardId itemTitle groupId
      parentItemId cv).fst = Except.ok r := by
  cases hp : parentItemId.isNone <;> cases hg : groupId.isNone
  · -- neither is None: conflict text
    simp [Tools.handle_monday_create_item, hp, hg]
  · -- parentItemId set, groupId None: sub-item branch
    obtain ⟨v, hv⟩ := hW.create_subitem_ok parentItemId itemTitle cv
    cases hurl : createItemUrlText v boardId "create_subitem" <;>
      simp [Tools.handle_monday_create_item, hp, hg, hv, hurl, createItemRender]
  · -- parentItemId None, groupId set: item branch
    obtain ⟨v, hv⟩ := hW.create_item_ok boardId groupId itemTitle cv
    cases hurl : createItemUrlText v boardId "create_item" <;>
      simp [Tools.handle_monday_create_item, hp, hg, hv, hurl, createItemRender]
  · -- both None: conflict text
    simp [Tools.handle_monday_create_item, hp, hg]

/-- C2 (amended): for every catalog tool name and argument bag matching
that tool input schema, the dispatcher returns a result (success text
or validation-error text) and raises nothing, PROVIDED every external
call made returns normally with an envelope well-formed enough for the
handler reads; when an external call raises, the dispatcher logs and
re-raises instead of returning a structured error
(`tools.py:181-183`). -/
theorem call_tool_valid_args_returns (monday_client : MondayClient) (name : String)
    (bag : ArgBag) (hW : Tools.WellBehaved monday_client)
    (hmem : name ∈ Tools.catalogNames) (hvalid : Tools.validArgsB name bag = true) :
    ∃ r, (Tools.handle_call_tool monday_client name (some bag)).fst = Except.ok r := by
  rw [Tools.catalogNames_eq] at hmem
  fin_cases hmem
  · -- monday-create-item
    show ∃ r, (Tools.handle_monday_create_item monday_client (bagGet bag "boardId")
      (bagGet bag "itemTitle") (bagGet bag "groupId") (bagGet bag "parentItemId")
      (bagGet bag "column_values")).fst = Except.ok r
    exact handle_monday_create_item_returns monday_client hW _ _ _ _ _
  · -- monday-get-board-columns
    obtain ⟨v, hv⟩ := hW.custom_ok (Tools.getBoardColumnsQuery (bagGet bag "boardId"))
    show ∃ r, (Tools.handle_monday_get_board_columns monday_client
      (bagGet bag "boardId")).fst = Except.ok r
    simp [Tools.handle_monday_get_board_columns, hv]
  · -- monday-get-board-groups
    obtain ⟨v, d, hv, hd⟩ := hW.groups_ok (bagGet bag "boardId")
    show ∃ r, (Tools.handle_monday_get_board_groups monday_client
      (bagGet bag "boardId")).fst = Except.ok r
    simp [Tools.handle_monday_get_board_groups, hv, hd, Except.map]
  · -- monday-create-update
    obtain ⟨v, hv⟩ := hW.update_ok (bagGet bag "itemId") (bagGet bag "updateText")
    show ∃ r, (Tools.handle_monday_create_update monday_client (bagGet bag "itemId")
      (bagGet bag "updateText")).fst = Except.ok r
    simp [Tools.handle_monday_create_update, hv]
  · -- monday-list-boards
    obtain ⟨v, s, hv, hs⟩ := hW.boards_ok (Value.int 100)
    show ∃ r, (Tools.handle_monday_list_boards monday_client).fst = Except.ok r
    simp [Tools.handle_monday_list_boards, hv, hs, Except.map]
  · -- monday-list-items-in-groups
    rw [validArgsB_list_items_eq] at hvalid
    simp only [Bool.and_eq_true] at hvalid
    obtain ⟨⟨⟨hb, hgids⟩, hlim⟩, hcur⟩ := hvalid
    obtain ⟨gids, hge, hall⟩ := isListOfStr_shape _ hgids
    show ∃ r, (Tools.handle_monday_list_items_in_groups monday_client (bagGet bag "boardId")
      (bagGet bag "groupIds") (bagGet bag "limit") (bagGet bag "cursor")).fst = Except.ok r
    rw [hge]
    obtain ⟨s, hs⟩ := itemsPageParams_list_ok gids (bagGet bag "cursor") (bagGet bag "limit")
    obtain ⟨v, hv⟩ := hW.custom_ok (Tools.listItemsQuery (bagGet bag "boardId") s)
    simp [Tools.handle_monday_list_items_in_groups, hs, hv]
  · -- monday-list-subitems-in-items
    rw [validArgsB_subitems_eq] at hvalid
    obtain ⟨xs, hxe, hall⟩ := isListOfStr_shape _ hvalid
    show ∃ r, (Tools.handle_monday_list_subitems_in_items monday_client
      (bagGet bag "itemIds")).fst = Except.ok r
    rw [hxe]
    obtain ⟨ss, hss⟩ := strElems_ok xs hall
    obtain ⟨v, hv⟩ := hW.custom_ok
      (Tools.listSubitemsQuery (String.intercalate ", " ss))
    simp [Tools.handle_monday_list_subitems_in_items, Tools.pyJoin, hss, hv, Except.map]

theorem call_tool_valid_args_returns_witness :
    ∃ r, (Tools.handle_call_tool okClient "monday-get-board-groups"
      (some [("boardId", Value.str "b")])).fst = Except.ok r :=
  call_tool_valid_args_returns okClient "monday-get-board-groups"
    [("boardId", Value.str "b")] okClient_wellBehaved (by decide) (by decide)

/-- C2 (counterexample to the claim as stated): `monday-get-board-groups`
with its required `boardId` present and valid raises when the external
client raises — the handler has no exception handling and the
dispatcher re-raises (`tools.py:235-245`, `tools.py:181-183`). -/
theorem call_tool_valid_args_raises_counterexample :
    Tools.validArgsB Tools.ToolName.GET_BOARD_GROUPS [("boardId", Value.str "b1")] = true
    ∧ (Tools.handle_call_tool errClient Tools.ToolName.GET_BOARD_GROUPS
        (some [("boardId", Value.str "b1")])).fst =
      Except.error (PyErr.external "network down") :=
  ⟨rfl, rfl⟩
